import Mathlib

/-!
Verification of the sarvam-voice-agent orchestrator core.

Shallow embedding of the Python sources under `src/orchestrator/`:
`context_manager.py`, `language_coordinator.py`, `circuit_breaker.py`,
`task_router.py`, `metrics.py` and `agent_orchestrator.py`.

Modelling conventions:
- Python `None` becomes `Option.none`; a Python string that may be `None`
  becomes `Option String`, and Python truthiness of such a value is
  `pyTruthy` below (falsy on `None` and on the empty string).
- `bytes` values become `List Nat`; truthiness is non-emptiness.
- Wall-clock instants (`time.time()`) are threaded in as `Int` parameters;
  `time.perf_counter()` stage durations are threaded in as `Nat` parameters.
  The write-only `timestamp` bookkeeping fields (ISO strings in messages,
  floats in metric samples) never influence control flow and are omitted.
- Python list slicing `xs[-m:]` (with the literal index `-m`) is
  `pyTakeLast m xs`; note that for `m = 0` the slice `xs[-0:]` is `xs[0:]`,
  i.e. the whole list, which `pyTakeLast` reproduces.
- Raising an exception becomes an explicit error value; `str(e)` becomes the
  message carried by that value.
-/

/-- Python `xs[-m:]` with the literal index `-m`: the last `m` elements for
`m > 0`, the whole list for `m = 0` (because `-0 == 0`). -/
def pyTakeLast (m : Nat) (xs : List α) : List α :=
  if m = 0 then xs else xs.drop (xs.length - m)

/-- Truthiness of a Python `Optional[str]`: falsy iff `None` or `""`. -/
def pyTruthy : Option String → Bool
  | none => false
  | some s => s ≠ ""

/-- Truthiness of a Python `Optional[bytes]`: falsy iff `None` or empty. -/
def pyTruthyBytes : Option (List Nat) → Bool
  | none => false
  | some b => b ≠ []

/-- The last `min k (length xs)` elements of `xs` (specification-side helper,
used to state which turns a bounded history retains). -/
def lastN (k : Nat) (xs : List α) : List α :=
  xs.drop (xs.length - k)

/-! ## ContextManager (`src/orchestrator/context_manager.py`) -/

/-- One entry of `conversation_history`.  System messages carry no
`language` key, so `language` is optional.  The write-only `timestamp`
key is omitted (see header). -/
structure Msg where
  role : String
  content : String
  language : Option String
deriving Repr, DecidableEq

/-- The `{role, content}` dictionaries handed to the LLM. -/
structure RoleContent where
  role : String
  content : String
deriving Repr, DecidableEq

/-- State of `ContextManager`.  The `user_metadata` and `session_context`
dictionaries and `current_language` tag never interact with the history
invariants; `current_language` is kept because `add_turn` writes it. -/
structure ContextManager where
  conversation_history : List Msg
  max_history : Nat
  current_language : Option String
deriving Repr, DecidableEq

/-- `ContextManager.__init__`. -/
def ContextManager.init (max_history : Nat) : ContextManager :=
  { conversation_history := [], max_history := max_history, current_language := none }

/-- `ContextManager.add_turn`: append the user and assistant messages, set
`current_language`, then enforce the sliding window exactly as the source
does: when `len > max_history * 2`, keep the system messages plus the slice
`history[-(max_history * 2):]`. -/
def ContextManager.add_turn (cm : ContextManager)
    (user_input assistant_response language : String) : ContextManager :=
  let h := cm.conversation_history ++
    [⟨"user", user_input, some language⟩, ⟨"assistant", assistant_response, some language⟩]
  let h :=
    if cm.max_history * 2 < h.length then
      (h.filter (fun m => m.role == "system")) ++ pyTakeLast (cm.max_history * 2) h
    else h
  { cm with conversation_history := h, current_language := some language }

/-- `ContextManager.set_system_prompt`: drop existing system messages and
insert the new one at position 0. -/
def ContextManager.set_system_prompt (cm : ContextManager) (system_prompt : String) :
    ContextManager :=
  { cm with conversation_history :=
      ⟨"system", system_prompt, none⟩ ::
        cm.conversation_history.filter (fun m => m.role != "system") }

/-- `ContextManager.get_context`: the system message (an existing one wins
over the `system_prompt` argument) followed by all non-system messages,
projected to `{role, content}`. -/
def ContextManager.get_context (cm : ContextManager)
    (system_prompt : Option String := none) : List RoleContent :=
  let system_messages := cm.conversation_history.filter (fun m => m.role == "system")
  let head : List RoleContent :=
    match system_messages with
    | m :: _ => [⟨"system", m.content⟩]
    | [] =>
      match system_prompt with
      | some p => [⟨"system", p⟩]
      | none => []
  head ++ (cm.conversation_history.filter (fun m => m.role != "system")).map
    (fun m => ⟨m.role, m.content⟩)

/-- `ContextManager.clear_history`: keep only system messages. -/
def ContextManager.clear_history (cm : ContextManager) : ContextManager :=
  { cm with conversation_history :=
      cm.conversation_history.filter (fun m => m.role == "system") }

/-- `ContextManager.get_turn_count`: number of retained user messages. -/
def ContextManager.get_turn_count (cm : ContextManager) : Nat :=
  (cm.conversation_history.filter (fun m => m.role == "user")).length

/-! ## LanguageCoordinator (`src/orchestrator/language_coordinator.py`) -/

/-- The `LANGUAGE_NAMES` class dictionary. -/
def LANGUAGE_NAMES : List (String × String) :=
  [("te-IN", "Telugu"), ("hi-IN", "Hindi"), ("en-IN", "English"), ("gu-IN", "Gujarati")]

/-- State of `LanguageCoordinator` (all fields of the source class). -/
structure LanguageCoordinator where
  selected_language : Option String
  detected_language : Option String
  language_consistency : Bool
  switch_threshold : Nat
  history_size : Nat
  min_turns_before_switch : Nat
  language_history : List String
  consecutive_different_count : Nat
  turn_count : Nat
  last_different_language : Option String
deriving Repr, DecidableEq

/-- `LanguageCoordinator.__init__(switch_threshold=2, history_size=5,
min_turns_before_switch=2)`.  Note the signature: there is no
`default_language` parameter. -/
def LanguageCoordinator.init (switch_threshold : Nat := 2) (history_size : Nat := 5)
    (min_turns_before_switch : Nat := 2) : LanguageCoordinator :=
  { selected_language := none
    detected_language := none
    language_consistency := true
    switch_threshold := switch_threshold
    history_size := history_size
    min_turns_before_switch := min_turns_before_switch
    language_history := []
    consecutive_different_count := 0
    turn_count := 0
    last_different_language := none }

/-- The keyword parameters `LanguageCoordinator.__init__` accepts
(besides `self`), read off its `def` line. -/
def LanguageCoordinator.initKeywords : List String :=
  ["switch_threshold", "history_size", "min_turns_before_switch"]

/-- `LanguageCoordinator.set_language`: accept a supported code, otherwise
fall back to the hard-coded `"te-IN"`.  Nothing else is touched. -/
def LanguageCoordinator.set_language (lc : LanguageCoordinator) (language_code : String) :
    LanguageCoordinator :=
  if (LANGUAGE_NAMES.lookup language_code).isSome then
    { lc with selected_language := some language_code }
  else
    { lc with selected_language := some "te-IN" }

/-- `LanguageCoordinator.set_detected_language`: record the detection, keep
the bounded history (a single `pop(0)` when over `history_size`), update the
consecutive-mismatch counters, and auto-switch when both thresholds are met. -/
def LanguageCoordinator.set_detected_language (lc : LanguageCoordinator)
    (language_code : String) : LanguageCoordinator :=
  let lc := { lc with detected_language := some language_code }
  let hist := lc.language_history ++ [language_code]
  let hist := if lc.history_size < hist.length then hist.tail else hist
  let lc := { lc with language_history := hist }
  match lc.selected_language with
  | some sel =>
    if language_code ≠ sel then
      let lc :=
        if lc.last_different_language = some language_code then
          { lc with consecutive_different_count := lc.consecutive_different_count + 1 }
        else
          { lc with consecutive_different_count := 1,
                    last_different_language := some language_code }
      if lc.switch_threshold ≤ lc.consecutive_different_count ∧
          lc.min_turns_before_switch ≤ lc.turn_count then
        { lc with selected_language := some language_code,
                  consecutive_different_count := 0,
                  last_different_language := none,
                  language_consistency := true }
      else lc
    else
      { lc with consecutive_different_count := 0,
                last_different_language := none,
                language_consistency := true }
  | none =>
    { lc with consecutive_different_count := 0,
              last_different_language := none,
              language_consistency := true }

/-- `LanguageCoordinator.get_processing_language`:
selected, else detected, else `"te-IN"`. -/
def LanguageCoordinator.get_processing_language (lc : LanguageCoordinator) : String :=
  match lc.selected_language with
  | some s => if s ≠ "" then s else
      match lc.detected_language with
      | some d => if d ≠ "" then d else "te-IN"
      | none => "te-IN"
  | none =>
    match lc.detected_language with
    | some d => if d ≠ "" then d else "te-IN"
    | none => "te-IN"

/-- `LanguageCoordinator.get_language_name`. -/
def LanguageCoordinator.get_language_name (lc : LanguageCoordinator)
    (language_code : Option String := none) : String :=
  let code :=
    match language_code with
    | some c => c
    | none => lc.get_processing_language
  (LANGUAGE_NAMES.lookup code).getD "Telugu"

/-- `LanguageCoordinator.ensure_consistency`: return the processing language
(computed before the increment), increment `turn_count`, refresh the
consistency flag. -/
def LanguageCoordinator.ensure_consistency (lc : LanguageCoordinator) :
    String × LanguageCoordinator :=
  let target_language := lc.get_processing_language
  let lc := { lc with turn_count := lc.turn_count + 1 }
  let lc :=
    match lc.selected_language, lc.detected_language with
    | some sel, some det =>
      if pyTruthy (some sel) ∧ pyTruthy (some det) then
        { lc with language_consistency := sel = det }
      else lc
    | _, _ => lc
  (target_language, lc)

/-! ## CircuitBreaker (`src/orchestrator/circuit_breaker.py`) -/

/-- State of `CircuitBreaker`; `state` keeps the source's string encoding
(`"closed"`, `"open"`, `"half_open"`). -/
structure CircuitBreaker where
  failure_threshold : Nat
  timeout : Int
  failure_count : Nat
  state : String
  last_failure_time : Int
  success_count : Nat
  half_open_success_threshold : Nat
deriving Repr, DecidableEq

/-- `CircuitBreaker.__init__(failure_threshold=5, timeout=60)`. -/
def CircuitBreaker.init (failure_threshold : Nat := 5) (timeout : Int := 60) :
    CircuitBreaker :=
  { failure_threshold := failure_threshold
    timeout := timeout
    failure_count := 0
    state := "closed"
    last_failure_time := 0
    success_count := 0
    half_open_success_threshold := 2 }

/-- Message of the `CircuitBreakerOpen` exception (the source formats the
remaining cooldown with `:.0f`; integer rendering stands in for that). -/
def circuitOpenMsg (remaining : Int) : String :=
  "Circuit breaker is OPEN. Retry after " ++ toString remaining ++ " seconds"

/-- Result of `CircuitBreaker.call`: fail-fast with `CircuitBreakerOpen`,
return the operation's value, or re-raise the operation's exception. -/
inductive CallResult (ε α : Type) where
  | circuitOpen (msg : String)
  | ok (a : α)
  | raised (e : ε)
deriving Repr, DecidableEq

/-- `CircuitBreaker.call`.  The wrapped operation is represented by its
outcome (`Except.ok` for a normal return, `Except.error` for a raise); `now`
stands for `time.time()` during the call. -/
def CircuitBreaker.call (cb : CircuitBreaker) (now : Int) (outcome : Except ε α) :
    CallResult ε α × CircuitBreaker :=
  let entry : Option CircuitBreaker :=
    if cb.state == "open" then
      if cb.timeout < now - cb.last_failure_time then
        some { cb with state := "half_open", success_count := 0 }
      else none
    else some cb
  match entry with
  | none => (.circuitOpen (circuitOpenMsg (cb.timeout - (now - cb.last_failure_time))), cb)
  | some cb =>
    match outcome with
    | .ok a =>
      let cb :=
        if cb.state == "half_open" then
          let cb := { cb with success_count := cb.success_count + 1 }
          if cb.half_open_success_threshold ≤ cb.success_count then
            { cb with state := "closed", failure_count := 0 }
          else cb
        else if cb.state == "closed" then
          { cb with failure_count := 0 }
        else cb
      (.ok a, cb)
    | .error e =>
      let cb := { cb with failure_count := cb.failure_count + 1, last_failure_time := now }
      let cb :=
        if cb.failure_threshold ≤ cb.failure_count then
          { cb with state := "open" }
        else if cb.state == "half_open" then
          { cb with state := "open" }
        else cb
      (.raised e, cb)

/-- `CircuitBreaker.reset`. -/
def CircuitBreaker.reset (cb : CircuitBreaker) : CircuitBreaker :=
  { cb with state := "closed", failure_count := 0, success_count := 0,
            last_failure_time := 0 }

/-! ## TaskRouter (`src/orchestrator/task_router.py`)

The three externally supplied capability modules are represented by their
observable behaviour: each call site receives the attempt index (for the
retrying routes) and the arguments the source passes, and yields either a
normal return or a raised exception (carrying its `str(e)` message). -/

/-- The injected STT/LLM/TTS module behaviours. -/
structure Modules where
  speech_to_text : Nat → List Nat → Option String → Except String (Option String × Option String)
  chat : List RoleContent → Except String (Option String)
  text_to_speech : Nat → String → String → Except String (Option (List Nat))

/-- Python `str.strip()` with the default whitespace set: drop whitespace
from both ends (written with structural `dropWhile` so it evaluates by
reduction). -/
def pyStrip (s : String) : String :=
  ⟨(((s.data.dropWhile Char.isWhitespace).reverse).dropWhile Char.isWhitespace).reverse⟩

/-- Python `text and len(text.strip()) > 0`. -/
def sttTextOk (t : Option String) : Bool :=
  pyTruthy t && (pyStrip (t.getD "")).length > 0

/-- The `for attempt in range(retry_count)` loop of `route_transcription`,
iterating over the attempt indices. -/
def routeTranscriptionLoop (m : Modules) (audio_data : List Nat) (language : Option String)
    (retry_count : Nat) : List Nat → Option String × Option String
  | [] => (none, none)
  | attempt :: rest =>
    match m.speech_to_text attempt audio_data language with
    | .ok (text, detected_lang) =>
      if sttTextOk text then (text, detected_lang)
      else if attempt < retry_count - 1 then
        routeTranscriptionLoop m audio_data language retry_count rest
      else (none, none)
    | .error _ =>
      if attempt < retry_count - 1 then
        routeTranscriptionLoop m audio_data language retry_count rest
      else (none, none)

/-- `TaskRouter.route_transcription(audio_data, language, retry_count=2)`:
retry on raise or empty text, `(None, None)` once attempts are exhausted. -/
def TaskRouter.route_transcription (m : Modules) (audio_data : List Nat)
    (language : Option String) (retry_count : Nat := 2) :
    Option String × Option String :=
  routeTranscriptionLoop m audio_data language retry_count (List.range retry_count)

/-- `TaskRouter.route_generation(text, context, language)`: a single LLM call
on `context + [{role: user, content: text}]`; `None` on raise or empty
response (the `language` parameter is accepted but unused, as in the source). -/
def TaskRouter.route_generation (m : Modules) (text : String)
    (context : List RoleContent) (language : String) : Option String :=
  let messages := context ++ [⟨"user", text⟩]
  match m.chat messages with
  | .ok response => if sttTextOk response then response else none
  | .error _ => none

/-- The `for attempt in range(retry_count)` loop of `route_synthesis`,
iterating over the attempt indices. -/
def routeSynthesisLoop (m : Modules) (text language : String)
    (retry_count : Nat) : List Nat → Option (List Nat)
  | [] => none
  | attempt :: rest =>
    match m.text_to_speech attempt text language with
    | .ok audio_data =>
      if pyTruthyBytes audio_data then audio_data
      else if attempt < retry_count - 1 then
        routeSynthesisLoop m text language retry_count rest
      else none
    | .error _ =>
      if attempt < retry_count - 1 then
        routeSynthesisLoop m text language retry_count rest
      else none

/-- `TaskRouter.route_synthesis(text, language, retry_count=2)`. -/
def TaskRouter.route_synthesis (m : Modules) (text language : String)
    (retry_count : Nat := 2) : Option (List Nat) :=
  routeSynthesisLoop m text language retry_count (List.range retry_count)

/-! ## MetricsCollector (`src/orchestrator/metrics.py`) -/

/-- One `TurnMetrics` sample (the write-only `timestamp` is omitted). -/
structure TurnMetrics where
  stt_latency : Nat
  llm_latency : Nat
  tts_latency : Nat
  total_latency : Nat
  language : String
  success : Bool
  error_type : Option String
deriving Repr, DecidableEq

/-- State of `MetricsCollector`. -/
structure MetricsCollector where
  turn_metrics : List TurnMetrics
  max_metrics : Nat
deriving Repr, DecidableEq

/-- `MetricsCollector.__init__(max_metrics=1000)`. -/
def MetricsCollector.init (max_metrics : Nat := 1000) : MetricsCollector :=
  { turn_metrics := [], max_metrics := max_metrics }

/-- `MetricsCollector.record_turn`: append a sample, then keep the slice
`turn_metrics[-max_metrics:]` when over the limit. -/
def MetricsCollector.record_turn (mc : MetricsCollector)
    (stt_time llm_time tts_time : Nat) (language : String)
    (success : Bool := true) (error_type : Option String := none) : MetricsCollector :=
  let total := stt_time + llm_time + tts_time
  let l := mc.turn_metrics ++
    [⟨stt_time, llm_time, tts_time, total, language, success, error_type⟩]
  let l := if mc.max_metrics < l.length then pyTakeLast mc.max_metrics l else l
  { mc with turn_metrics := l }

/-! ## AgentOrchestrator (`src/orchestrator/agent_orchestrator.py`) -/

/-- The `circuit_breakers` dictionary when `enable_circuit_breaker` is true:
one breaker per stage, keys `"stt"`, `"llm"`, `"tts"`. -/
structure Breakers where
  stt : CircuitBreaker
  llm : CircuitBreaker
  tts : CircuitBreaker
deriving Repr, DecidableEq

/-- Orchestrator state.  `circuit_breakers = none` models the empty dict of
`enable_circuit_breaker=False`. -/
structure AgentOrchestrator where
  context_manager : ContextManager
  language_coordinator : LanguageCoordinator
  metrics : Option MetricsCollector
  circuit_breakers : Option Breakers
  is_processing : Bool
  processing_state : String
  last_error : Option String

/-- The hard-coded fallback base prompt of
`_update_system_prompt_for_language`. -/
def DEFAULT_BASE_PROMPT : String :=
  "You are a helpful customer support agent for the Electrical Department in India.\n\nYour responsibilities:\n- Handle electrical complaints (power outages, voltage issues, meter problems)\n- Provide information about electricity bills and payments\n- Help with new connection requests\n- Report electrical hazards and emergencies\n- Provide lineman contact numbers and department information\n\nGuidelines:\n- Keep responses SHORT and CONCISE (2-3 sentences maximum for voice calls)\n- Be professional, polite, and helpful\n- Ask ONE clear question at a time\n- If you do not have specific information, acknowledge briefly and offer to connect to a human agent\n- For emergencies, prioritize safety and provide emergency contact: 1912"

/-- `AgentOrchestrator._update_system_prompt_for_language`: take the first
system message of the current context as base prompt, strip a previously
appended language directive (text after `"CRITICAL: User selected"`), fall
back to the default base prompt when empty, and install the regenerated
prompt. -/
def AgentOrchestrator.update_system_prompt_for_language (o : AgentOrchestrator)
    (language_code : String) : AgentOrchestrator :=
  let language_name := o.language_coordinator.get_language_name (some language_code)
  let existing_context := o.context_manager.get_context none
  let existing_system : Option String :=
    (existing_context.find? (fun msg => msg.role == "system")).map (fun msg => msg.content)
  let base_prompt :=
    match existing_system with
    | some bp =>
      let parts := bp.splitOn "CRITICAL: User selected"
      if parts.length > 1 then pyStrip (parts.headD "") else bp
    | none => ""
  let base_prompt := if base_prompt ≠ "" then base_prompt else DEFAULT_BASE_PROMPT
  let new_prompt := base_prompt ++ "\n\nCRITICAL: User selected " ++ language_name ++
    " language. You MUST respond ONLY in " ++ language_name ++
    ".\n\nRemember: ALWAYS respond in " ++ language_name ++ " language only!"
  { o with context_manager := o.context_manager.set_system_prompt new_prompt }

/-- `AgentOrchestrator.set_language`. -/
def AgentOrchestrator.set_language (o : AgentOrchestrator) (language_code : String) :
    AgentOrchestrator :=
  let o := { o with language_coordinator := o.language_coordinator.set_language language_code }
  o.update_system_prompt_for_language language_code

/-- The `metrics` dictionary of a successful turn result. -/
structure ResultMetrics where
  stt_time : Nat
  llm_time : Nat
  tts_time : Nat
  total_time : Nat
deriving Repr, DecidableEq

/-- The dictionary `process_turn` returns; `none` in `metrics`/`error`
models the key being absent. -/
structure TurnResult where
  text : Option String
  response : Option String
  audio : Option (List Nat)
  language : Option String
  metrics : Option ResultMetrics
  error : Option String
deriving Repr, DecidableEq

/-- The clock samples a turn consumes: one `time.time()` per breaker call and
the three `perf_counter` stage durations. -/
structure TurnClock where
  stt_now : Int
  llm_now : Int
  tts_now : Int
  stt_time : Nat
  llm_time : Nat
  tts_time : Nat

/-- Step 6 of `process_turn`: the TTS stage, reached with non-empty `text`
and `response` already appended to the context.  A raise (in practice only
`CircuitBreakerOpen`, since `route_synthesis` swallows module exceptions)
degrades gracefully to a text-only result with an error message; a normal
return — even `None` after retry exhaustion — is reported through the
full-success shape with a `metrics` object and no error key. -/
def AgentOrchestrator.ttsStage (o : AgentOrchestrator) (m : Modules) (clk : TurnClock)
    (text response processing_language : String) : TurnResult × AgentOrchestrator :=
  let (ttsResult, o) :=
    match o.circuit_breakers with
    | some cbs =>
      let (r, cb) := cbs.tts.call clk.tts_now
        (Except.ok (ε := String)
          (TaskRouter.route_synthesis m response processing_language))
      (r, { o with circuit_breakers := some { cbs with tts := cb } })
    | none =>
      (.ok (TaskRouter.route_synthesis m response processing_language), o)
  match ttsResult with
  | .circuitOpen msg =>
    let err := "TTS error: " ++ msg
    let o :=
      match o.metrics with
      | some mc => { o with metrics := some (mc.record_turn clk.stt_time
          clk.llm_time clk.tts_time processing_language false (some "TTS")) }
      | none => o
    let o := { o with processing_state := "idle", is_processing := false }
    ({ text := some text, response := some response, audio := none,
       language := some processing_language, metrics := none, error := some err }, o)
  | .raised msg =>
    let err := "TTS error: " ++ msg
    let o :=
      match o.metrics with
      | some mc => { o with metrics := some (mc.record_turn clk.stt_time
          clk.llm_time clk.tts_time processing_language false (some "TTS")) }
      | none => o
    let o := { o with processing_state := "idle", is_processing := false }
    ({ text := some text, response := some response, audio := none,
       language := some processing_language, metrics := none, error := some err }, o)
  | .ok audio_output =>
    let o :=
      match o.metrics with
      | some mc => { o with metrics := some (mc.record_turn clk.stt_time
          clk.llm_time clk.tts_time processing_language true none) }
      | none => o
    let total_time := clk.stt_time + clk.llm_time + clk.tts_time
    let o := { o with processing_state := "idle", is_processing := false }
    ({ text := some text, response := some response, audio := audio_output,
       language := some processing_language,
       metrics := some ⟨clk.stt_time, clk.llm_time, clk.tts_time, total_time⟩,
       error := none }, o)

/-- Steps 3–5 of `process_turn`: fetch context, run the LLM through its
breaker, bail out on failure or empty response (leaving `is_processing`
set, as the source's early `return`s do), else append the turn and go on to
TTS. -/
def AgentOrchestrator.llmStage (o : AgentOrchestrator) (m : Modules) (clk : TurnClock)
    (text processing_language : String) (system_prompt : Option String) :
    TurnResult × AgentOrchestrator :=
  let o := { o with processing_state := "llm" }
  let context := o.context_manager.get_context system_prompt
  let (llmResult, o) :=
    match o.circuit_breakers with
    | some cbs =>
      let (r, cb) := cbs.llm.call clk.llm_now
        (Except.ok (ε := String)
          (TaskRouter.route_generation m text context processing_language))
      (r, { o with circuit_breakers := some { cbs with llm := cb } })
    | none =>
      (.ok (TaskRouter.route_generation m text context processing_language), o)
  match llmResult with
  | .circuitOpen msg =>
    let err := "LLM error: " ++ msg
    ({ text := some text, response := none, audio := none,
       language := some processing_language, metrics := none, error := some err },
     { o with processing_state := "error", last_error := some err })
  | .raised msg =>
    let err := "LLM error: " ++ msg
    ({ text := some text, response := none, audio := none,
       language := some processing_language, metrics := none, error := some err },
     { o with processing_state := "error", last_error := some err })
  | .ok response =>
    if ¬ pyTruthy response then
      let err := "LLM returned empty response"
      ({ text := some text, response := none, audio := none,
         language := some processing_language, metrics := none, error := some err },
       { o with processing_state := "error", last_error := some err })
    else
      let response := response.getD ""
      let o := { o with context_manager :=
          o.context_manager.add_turn text response processing_language }
      let o := { o with processing_state := "tts" }
      o.ttsStage m clk text response processing_language

/-- Step 2 of `process_turn`: feed the detected language back into the
coordinator, recompute the processing language, refresh the system prompt if
the selected language changed, then go on to the LLM stage. -/
def AgentOrchestrator.langStage (o : AgentOrchestrator) (m : Modules) (clk : TurnClock)
    (text : String) (detected_lang : Option String) (system_prompt : Option String) :
    TurnResult × AgentOrchestrator :=
  let previous_language := o.language_coordinator.selected_language
  let o :=
    if pyTruthy detected_lang then
      { o with language_coordinator :=
          o.language_coordinator.set_detected_language (detected_lang.getD "") }
    else o
  let (processing_language, o) :=
    let (pl, lc) := o.language_coordinator.ensure_consistency
    (pl, { o with language_coordinator := lc })
  let o :=
    if previous_language ≠ o.language_coordinator.selected_language then
      o.update_system_prompt_for_language processing_language
    else o
  o.llmStage m clk text processing_language system_prompt

/-- Step 1 of `process_turn`: run STT through its breaker; a raise or empty
transcription ends the turn in `error` (the early `return` leaves
`is_processing` set, as in the source), else continue with the
language-coordination step. -/
def AgentOrchestrator.sttStage (o : AgentOrchestrator) (m : Modules) (clk : TurnClock)
    (audio_data : List Nat) (processing_language : String)
    (system_prompt : Option String) : TurnResult × AgentOrchestrator :=
  let (sttResult, o) :=
    match o.circuit_breakers with
    | some cbs =>
      let (r, cb) := cbs.stt.call clk.stt_now
        (Except.ok (ε := String)
          (TaskRouter.route_transcription m audio_data (some processing_language)))
      (r, { o with circuit_breakers := some { cbs with stt := cb } })
    | none =>
      (.ok (TaskRouter.route_transcription m audio_data (some processing_language)), o)
  match sttResult with
  | .circuitOpen msg =>
    let err := "STT error: " ++ msg
    ({ text := none, response := none, audio := none,
       language := some processing_language, metrics := none, error := some err },
     { o with processing_state := "error", last_error := some err })
  | .raised msg =>
    let err := "STT error: " ++ msg
    ({ text := none, response := none, audio := none,
       language := some processing_language, metrics := none, error := some err },
     { o with processing_state := "error", last_error := some err })
  | .ok (text, detected_lang) =>
    if ¬ pyTruthy text then
      let err := "STT returned empty text"
      ({ text := none, response := none, audio := none,
         language := some processing_language, metrics := none, error := some err },
       { o with processing_state := "error", last_error := some err })
    else
      o.langStage m clk (text.getD "") detected_lang system_prompt

/-- `AgentOrchestrator.process_turn`, assembled from the stage functions
above (inlining them reproduces the source's single function body).  The
early `return`s of the STT-failure, empty-transcription, LLM-failure and
empty-response paths leave `is_processing` set, exactly as the source does
(there is no `finally`). -/
def AgentOrchestrator.process_turn (o : AgentOrchestrator) (m : Modules) (clk : TurnClock)
    (audio_data : List Nat) (language : Option String := none)
    (system_prompt : Option String := none) : TurnResult × AgentOrchestrator :=
  if o.is_processing then
    ({ text := none, response := none, audio := none, language := none,
       metrics := none, error := some "Already processing" }, o)
  else
    let o := { o with is_processing := true, processing_state := "stt", last_error := none }
    -- processing_language = language or self.language_coordinator.ensure_consistency()
    let (processing_language, o) :=
      if pyTruthy language then (language.getD "", o)
      else
        let (pl, lc) := o.language_coordinator.ensure_consistency
        (pl, { o with language_coordinator := lc })
    o.sttStage m clk audio_data processing_language system_prompt

/-- `AgentOrchestrator.clear_history`. -/
def AgentOrchestrator.clear_history (o : AgentOrchestrator) : AgentOrchestrator :=
  { o with context_manager := o.context_manager.clear_history }

/-- Python keyword-call check: every keyword passed must be a parameter the
callee declares, else the call raises `TypeError`. -/
def pyCallAccepts (accepted passed : List String) : Bool :=
  passed.all (fun k => accepted.contains k)

/-- Constructing a `LanguageCoordinator` with a given set of keyword
arguments: `TypeError` when a keyword is not in the `__init__` signature. -/
def LanguageCoordinator.initWithKwargs (kwargs : List String) :
    Except String LanguageCoordinator :=
  if pyCallAccepts LanguageCoordinator.initKeywords kwargs then
    Except.ok LanguageCoordinator.init
  else
    Except.error "TypeError: LanguageCoordinator.__init__ got an unexpected keyword argument"

/-- `AgentOrchestrator.__init__`: builds the task router and context manager,
then calls `LanguageCoordinator(default_language=default_language)` — which
raises `TypeError`, since that keyword is not in the coordinator's
signature — before the remaining fields (breakers, prompt, run flags) are
initialized. -/
def AgentOrchestrator.init (max_history : Nat := 10)
    (default_language : String := "te-IN") (system_prompt : Option String := none)
    (metrics_collector : Option MetricsCollector := none)
    (enable_circuit_breaker : Bool := true) : Except String AgentOrchestrator := do
  let cm := ContextManager.init max_history
  let lc ← LanguageCoordinator.initWithKwargs ["default_language"]
  let breakers :=
    if enable_circuit_breaker then
      some (Breakers.mk (CircuitBreaker.init 5 60) (CircuitBreaker.init 5 60)
        (CircuitBreaker.init 5 60))
    else none
  let cm :=
    match system_prompt with
    | some sp => if sp ≠ "" then cm.set_system_prompt sp else cm
    | none => cm
  pure { context_manager := cm, language_coordinator := lc, metrics := metrics_collector,
         circuit_breakers := breakers, is_processing := false,
         processing_state := "idle", last_error := none }

/-! ## Concrete fixtures used by the turn-level theorems -/

/-- The orchestrator state `__init__` is written to produce (defaults,
circuit breakers enabled, no metrics collector, no system prompt); per the
constructor analysis it is unreachable through `__init__` as written, but it
is the state the turn-level properties quantify over. -/
def freshOrchestrator : AgentOrchestrator :=
  { context_manager := ContextManager.init 10
    language_coordinator := LanguageCoordinator.init
    metrics := none
    circuit_breakers := some
      ⟨CircuitBreaker.init 5 60, CircuitBreaker.init 5 60, CircuitBreaker.init 5 60⟩
    is_processing := false
    processing_state := "idle"
    last_error := none }

/-- A fixed 42-byte audio value. -/
def audio42 : List Nat := List.replicate 42 1

/-- Modules for the round-trip scenario: STT hears `("hello", "en-IN")`, the
LLM answers `"hi there"`, TTS returns the 42-byte audio. -/
def happyModules : Modules :=
  { speech_to_text := fun _ _ _ => .ok (some "hello", some "en-IN")
    chat := fun _ => .ok (some "hi there")
    text_to_speech := fun _ _ _ => .ok (some audio42) }

/-- Modules whose STT returns no text on every attempt. -/
def sttEmptyModules : Modules :=
  { speech_to_text := fun _ _ _ => .ok (none, none)
    chat := fun _ => .ok (some "hi there")
    text_to_speech := fun _ _ _ => .ok (some audio42) }

/-- Modules whose TTS returns `None` on every attempt (retry exhaustion)
while STT and LLM succeed. -/
def ttsNoneModules : Modules :=
  { speech_to_text := fun _ _ _ => .ok (some "hello", some "en-IN")
    chat := fun _ => .ok (some "hi there")
    text_to_speech := fun _ _ _ => .ok none }

/-- A fixed clock: breaker clock at 0, stage durations 3, 5 and 7. -/
def clk0 : TurnClock :=
  { stt_now := 0, llm_now := 0, tts_now := 0, stt_time := 3, llm_time := 5, tts_time := 7 }

/-! ## Specification-side model for the ContextManager claims -/

/-- One public `ContextManager` mutation (the operations the history-bound
claim quantifies over). -/
inductive CtxOp where
  | addTurn (user_input assistant_response language : String)
  | setPrompt (system_prompt : String)
  | clear
deriving Repr, DecidableEq

/-- Apply one mutation. -/
def ContextManager.apply (cm : ContextManager) : CtxOp → ContextManager
  | .addTurn u a l => cm.add_turn u a l
  | .setPrompt p => cm.set_system_prompt p
  | .clear => cm.clear_history

/-- Run a sequence of mutations left to right. -/
def ContextManager.runOps (cm : ContextManager) (ops : List CtxOp) : ContextManager :=
  ops.foldl ContextManager.apply cm

/-- Ghost state: the turns added since the last `clear`, in order. -/
def turnsSince (ops : List CtxOp) : List (String × String × String) :=
  ops.foldl
    (fun acc op =>
      match op with
      | .addTurn u a l => acc ++ [(u, a, l)]
      | .setPrompt _ => acc
      | .clear => []) []

/-- Ghost state: the most recently set system prompt, if any. -/
def lastSysPrompt (ops : List CtxOp) : Option String :=
  ops.foldl
    (fun acc op =>
      match op with
      | .setPrompt p => some p
      | _ => acc) none

/-- The system-message segment a prompt value induces. -/
def sysList : Option String → List Msg
  | some p => [⟨"system", p, none⟩]
  | none => []

/-- The message pairs a list of turns induces, oldest first. -/
def pairsFlat : List (String × String × String) → List Msg
  | [] => []
  | (u, a, l) :: ts =>
    ⟨"user", u, some l⟩ :: ⟨"assistant", a, some l⟩ :: pairsFlat ts

/-! ## C2 — the constructor raises TypeError -/

/-- C2: for every combination of constructor arguments,
`AgentOrchestrator.__init__` fails with `TypeError`, because it calls
`LanguageCoordinator(default_language=...)` while the coordinator's
`__init__` accepts only `switch_threshold`, `history_size` and
`min_turns_before_switch`; hence no orchestrator value is ever produced by
the public constructor. -/
theorem agent_orchestrator_init_always_type_error
    (max_history : Nat) (default_language : String) (system_prompt : Option String)
    (metrics_collector : Option MetricsCollector) (enable_circuit_breaker : Bool) :
    AgentOrchestrator.init max_history default_language system_prompt
        metrics_collector enable_circuit_breaker =
      Except.error
        "TypeError: LanguageCoordinator.__init__ got an unexpected keyword argument" := rfl

/-! ## C5 — detection counting vs `turn_count` -/

/-- C5 (divergence witness): with `switch_threshold = 2`,
`min_turns_before_switch = 1`, selected `"te-IN"` and no prior mismatch,
`set_detected_language` does NOT increment `turn_count` (it stays 0; only
`ensure_consistency` increments it), and therefore the second consecutive
`"hi-IN"` detection does NOT switch the selected language: the
`turn_count >= min_turns_before_switch` conjunct of the switch condition is
false.  This contradicts the claim and the repo's own unit tests
(`test_set_detected_language`, `test_auto_switch`). -/
theorem set_detected_language_no_turn_count_no_switch :
    (((LanguageCoordinator.init 2 5 1).set_language "te-IN").set_detected_language
        "hi-IN").turn_count = 0 ∧
    (((LanguageCoordinator.init 2 5 1).set_language "te-IN").set_detected_language
        "hi-IN").selected_language = some "te-IN" ∧
    (((LanguageCoordinator.init 2 5 1).set_language "te-IN").set_detected_language
        "hi-IN").consecutive_different_count = 1 ∧
    (((LanguageCoordinator.init 2 5 1).set_language "te-IN").set_detected_language
        "hi-IN").language_history = ["hi-IN"] ∧
    ((((LanguageCoordinator.init 2 5 1).set_language "te-IN").set_detected_language
        "hi-IN").set_detected_language "hi-IN").turn_count = 0 ∧
    ((((LanguageCoordinator.init 2 5 1).set_language "te-IN").set_detected_language
        "hi-IN").set_detected_language "hi-IN").selected_language = some "te-IN" ∧
    ((((LanguageCoordinator.init 2 5 1).set_language "te-IN").set_detected_language
        "hi-IN").set_detected_language "hi-IN").consecutive_different_count = 2 := by
  decide

/-! ## C6 — unsupported detections are not ignored -/

/-- C6 (counterexample): an unsupported code (`"fr-FR"`) passed to
`set_detected_language` is recorded in the detection history and in
`detected_language`, bumps the mismatch counters, and — after enough warmup
turns — auto-switches `selected_language` to the unsupported code, violating
the claimed invariant. -/
theorem set_detected_language_unsupported_not_ignored :
    let lc := (LanguageCoordinator.init 2 5 2).set_language "te-IN"
    let lc := (lc.ensure_consistency).2
    let lc := (lc.ensure_consistency).2
    let lc1 := lc.set_detected_language "fr-FR"
    let lc2 := lc1.set_detected_language "fr-FR"
    lc1.language_history = ["fr-FR"] ∧
    lc1.detected_language = some "fr-FR" ∧
    lc1.consecutive_different_count = 1 ∧
    lc1.last_different_language = some "fr-FR" ∧
    lc2.selected_language = some "fr-FR" ∧
    (LANGUAGE_NAMES.lookup "fr-FR").isSome = false := by decide

/-- The bounded-FIFO update of `set_detected_language` (append then a single
`pop(0)` when over capacity) keeps the just-appended element last, provided
the capacity is at least 1. -/
theorem getLast?_boundedPush (xs : List α) (x : α) (n : Nat) (hn : 1 ≤ n) :
    (if n < xs.length + 1 then (xs ++ [x]).tail else xs ++ [x]).getLast? = some x := by
  split
  · rename_i hlt
    match xs with
    | [] => simp at hlt; omega
    | y :: ys =>
      simp only [List.cons_append, List.tail_cons, List.getLast?_append_cons]
      rfl
  · simp only [List.getLast?_append_cons]
    rfl

/-- C6 (amended): `set_detected_language` applies no supported-code filter:
for EVERY code, supported or not, it sets `detected_language` to the code
and records it as the newest entry of the bounded detection FIFO (the
hypothesis `1 ≤ history_size` rules out the degenerate zero-capacity FIFO,
whose single `pop(0)` would immediately discard the entry). -/
theorem set_detected_language_records_every_code (lc : LanguageCoordinator)
    (code : String) (hsize : 1 ≤ lc.history_size) :
    (lc.set_detected_language code).detected_language = some code ∧
    (lc.set_detected_language code).language_history.getLast? = some code := by
  have hh := getLast?_boundedPush lc.language_history code lc.history_size hsize
  unfold LanguageCoordinator.set_detected_language
  refine ⟨?_, ?_⟩ <;> dsimp only <;> (repeat' split) <;> simp_all

/-- C6 witness: the amended theorem instantiated at a freshly constructed
coordinator and the unsupported code `"fr-FR"`. -/
theorem set_detected_language_records_every_code_witness :
    1 ≤ (LanguageCoordinator.init).history_size ∧
    ((LanguageCoordinator.init).set_detected_language "fr-FR").detected_language =
      some "fr-FR" ∧
    ((LanguageCoordinator.init).set_detected_language "fr-FR").language_history.getLast? =
      some "fr-FR" :=
  ⟨by decide,
   (set_detected_language_records_every_code LanguageCoordinator.init "fr-FR"
     (by decide)).1,
   (set_detected_language_records_every_code LanguageCoordinator.init "fr-FR"
     (by decide)).2⟩

/-! ## C7 — manual `set_language` does not reset the auto-switch counters -/

/-- C7 (counterexample): after one mismatched detection
(`consecutive_different_count = 1`, `last_different_language = "hi-IN"`), a
manual `set_language "te-IN"` leaves both counters untouched, contradicting
the claim that they are reset to 0 / cleared. -/
theorem set_language_does_not_reset_counters :
    let lc := ((LanguageCoordinator.init 2 5 2).set_language "te-IN").set_detected_language
      "hi-IN"
    let lc' := lc.set_language "te-IN"
    lc.consecutive_different_count = 1 ∧
    lc.last_different_language = some "hi-IN" ∧
    lc'.consecutive_different_count = 1 ∧
    lc'.last_different_language = some "hi-IN" := by decide

/-- C7 (amended): for every code and prior state, `set_language` sets
`selected_language` to the code when it is supported and to the hard-coded
`"te-IN"` otherwise, and changes nothing else — in particular the
auto-switch counters `consecutive_different_count` and
`last_different_language` (and `turn_count`) carry over unchanged, so
accumulated drift survives a manual language choice. -/
theorem set_language_only_sets_selected (lc : LanguageCoordinator) (code : String) :
    (lc.set_language code).selected_language =
      some (if (LANGUAGE_NAMES.lookup code).isSome then code else "te-IN") ∧
    (lc.set_language code).consecutive_different_count =
      lc.consecutive_different_count ∧
    (lc.set_language code).last_different_language = lc.last_different_language ∧
    (lc.set_language code).turn_count = lc.turn_count ∧
    (lc.set_language code).language_history = lc.language_history := by
  unfold LanguageCoordinator.set_language
  split <;> rename_i h <;> simp [h]

/-! ## C9 — mutual exclusion -/

/-- C9: entering `process_turn` while `is_processing` is true returns the
`"Already processing"` result immediately — all of `text`, `response`,
`audio` and `language` are null — and performs no work at all: the entire
orchestrator state (context history, language coordinator, circuit breakers,
metrics, flags) is returned unchanged, for every choice of module
behaviours, clock, audio and arguments. -/
theorem process_turn_already_processing (o : AgentOrchestrator) (m : Modules)
    (clk : TurnClock) (audio_data : List Nat) (language system_prompt : Option String)
    (h : o.is_processing = true) :
    o.process_turn m clk audio_data language system_prompt =
      ({ text := none, response := none, audio := none, language := none,
         metrics := none, error := some "Already processing" }, o) := by
  unfold AgentOrchestrator.process_turn
  simp [h]

/-- C9 witness: the mutual-exclusion theorem at a concrete busy
orchestrator. -/
theorem process_turn_already_processing_witness :
    ({ freshOrchestrator with is_processing := true } :
        AgentOrchestrator).is_processing = true ∧
    ({ freshOrchestrator with is_processing := true } :
        AgentOrchestrator).process_turn happyModules clk0 [9] none none =
      ({ text := none, response := none, audio := none, language := none,
         metrics := none, error := some "Already processing" },
       { freshOrchestrator with is_processing := true }) :=
  ⟨rfl,
   process_turn_already_processing { freshOrchestrator with is_processing := true }
     happyModules clk0 [9] none none rfl⟩

/-! ## C10 — round-trip scenario -/

/-- C10: starting from a fresh orchestrator (empty history, no selected or
detected language), with STT hearing `("hello", "en-IN")`, the LLM answering
`"hi there"` and TTS producing a 42-byte audio value, `process_turn` returns
exactly those fields, language `"en-IN"`, a metrics object with the three
stage times and their total, no error — and afterwards `get_turn_count()`
is 1. -/
theorem process_turn_round_trip :
    (audio42.length = 42) ∧
    ((freshOrchestrator.process_turn happyModules clk0 [9] none none).1 =
      { text := some "hello", response := some "hi there", audio := some audio42,
        language := some "en-IN",
        metrics := some { stt_time := 3, llm_time := 5, tts_time := 7, total_time := 15 },
        error := none }) ∧
    ((freshOrchestrator.process_turn happyModules clk0 [9] none
        none).2.context_manager.get_turn_count = 1) := by
  refine ⟨by decide, ?_, ?_⟩ <;> rfl

/-! ## C1 — `is_processing` is not cleared on the error return paths -/

/-- C1 (divergence witness): there is no `finally` in `process_turn`; on the
empty-transcription path (and likewise the STT/LLM failure and
empty-response paths, which `return` from inside the same `try`) the flag
`is_processing` is still true after the call returns, so a subsequent turn
with perfectly healthy modules is rejected with `"Already processing"` —
the orchestrator is permanently wedged, contradicting the claimed
every-completion-path reset. -/
theorem process_turn_leaves_is_processing_set :
    ((freshOrchestrator.process_turn sttEmptyModules clk0 [9] none none).1.error =
      some "STT returned empty text") ∧
    ((freshOrchestrator.process_turn sttEmptyModules clk0 [9] none
        none).2.is_processing = true) ∧
    ((freshOrchestrator.process_turn sttEmptyModules clk0 [9] none
        none).2.processing_state = "error") ∧
    (((freshOrchestrator.process_turn sttEmptyModules clk0 [9] none
        none).2.process_turn happyModules clk0 [9] none none).1.error =
      some "Already processing") := by
  refine ⟨?_, ?_, ?_, ?_⟩ <;> rfl

/-! ## C8 — TTS degradation -/

/-- C8 (counterexample): when STT and LLM succeed but TTS exhausts its
retries and `route_synthesis` returns `None` (no exception is raised), the
turn is returned through the full-success path: `text` and `response` are
populated and `audio` is null as the claim says, but the `error` field is
NOT populated — the result carries a `metrics` object instead and the turn
is even recorded as a success. -/
theorem process_turn_tts_retry_exhaustion_no_error_field :
    ((freshOrchestrator.process_turn ttsNoneModules clk0 [9] none none).1 =
      { text := some "hello", response := some "hi there", audio := none,
        language := some "en-IN",
        metrics := some { stt_time := 3, llm_time := 5, tts_time := 7, total_time := 15 },
        error := none }) ∧
    ¬ ((freshOrchestrator.process_turn ttsNoneModules clk0 [9] none none).1.error ≠
        none) := by
  exact ⟨rfl, fun h => h rfl⟩

/-! ## C3 — circuit breaker state machine -/

/-- A closed breaker passes a successful operation through and stays closed
with its failure counter reset. -/
theorem CircuitBreaker.call_closed_ok (cb : CircuitBreaker) (h : cb.state = "closed")
    (now : Int) (v : α) :
    cb.call (ε := ε) now (.ok v) = (.ok v, { cb with failure_count := 0 }) := by
  simp [CircuitBreaker.call, h]

/-- An open breaker within the cooldown fails fast with `CircuitBreakerOpen`
carrying the remaining cooldown, without consulting the operation and
without any state change. -/
theorem CircuitBreaker.call_open_fastfail (cb : CircuitBreaker) (h : cb.state = "open")
    (now : Int) (ht : now - cb.last_failure_time ≤ cb.timeout) (outcome : Except ε α) :
    cb.call now outcome =
      (.circuitOpen (circuitOpenMsg (cb.timeout - (now - cb.last_failure_time))), cb) := by
  simp [CircuitBreaker.call, h, not_lt.mpr ht]

/-- A closed breaker re-raises a failure, counts it, records its time, and
opens exactly when the count reaches the threshold. -/
theorem CircuitBreaker.call_closed_error (cb : CircuitBreaker) (h : cb.state = "closed")
    (now : Int) (e : ε) :
    cb.call (α := α) now (.error e) =
      (.raised e,
       if cb.failure_threshold ≤ cb.failure_count + 1 then
         { cb with failure_count := cb.failure_count + 1, last_failure_time := now,
                   state := "open" }
       else
         { cb with failure_count := cb.failure_count + 1, last_failure_time := now }) := by
  simp only [CircuitBreaker.call, h]
  split <;> simp_all

/-- A half-open breaker counts a success and closes (zeroing the failure
counter) exactly when the success threshold is reached. -/
theorem CircuitBreaker.call_half_open_ok (cb : CircuitBreaker) (h : cb.state = "half_open")
    (now : Int) (v : α) :
    cb.call (ε := ε) now (.ok v) =
      (.ok v,
       if cb.half_open_success_threshold ≤ cb.success_count + 1 then
         { cb with success_count := cb.success_count + 1, state := "closed",
                   failure_count := 0 }
       else
         { cb with success_count := cb.success_count + 1 }) := by
  simp only [CircuitBreaker.call, h]
  split <;> simp_all

/-- A half-open breaker goes back to open on any failure. -/
theorem CircuitBreaker.call_half_open_error (cb : CircuitBreaker)
    (h : cb.state = "half_open") (now : Int) (e : ε) :
    cb.call (α := α) now (.error e) =
      (.raised e,
       { cb with failure_count := cb.failure_count + 1, last_failure_time := now,
                 state := "open" }) := by
  simp only [CircuitBreaker.call, h]
  split <;> simp_all

/-- An open breaker whose cooldown has elapsed behaves like the half-open
breaker with a zeroed success counter (the lazy `open → half_open`
transition evaluated at call time). -/
theorem CircuitBreaker.call_open_after_timeout (cb : CircuitBreaker)
    (h : cb.state = "open") (now : Int) (ht : cb.timeout < now - cb.last_failure_time)
    (outcome : Except ε α) :
    cb.call now outcome =
      ({ cb with state := "half_open", success_count := 0 }).call now outcome := by
  simp only [CircuitBreaker.call, h]
  simp [ht]

/-- Pass-through on success: whenever the breaker is not failing fast, the
operation value is returned unchanged. -/
theorem CircuitBreaker.call_fst_ok (cb : CircuitBreaker) (now : Int) (a : α)
    (hpass : ¬ (cb.state = "open" ∧ now - cb.last_failure_time ≤ cb.timeout)) :
    (cb.call (ε := ε) now (.ok a)).1 = .ok a := by
  by_cases hs : cb.state = "open"
  · have ht : cb.timeout < now - cb.last_failure_time := by
      have := not_and.mp hpass hs
      omega
    rw [cb.call_open_after_timeout hs now ht,
      CircuitBreaker.call_half_open_ok _ rfl]
  · simp only [CircuitBreaker.call]
    have hb : (cb.state == "open") = false := by simpa using hs
    simp only [hb, Bool.false_eq_true, if_false]

/-- Pass-through on failure: whenever the breaker is not failing fast, the
operation original exception is re-raised unchanged. -/
theorem CircuitBreaker.call_fst_error (cb : CircuitBreaker) (now : Int) (e : ε)
    (hpass : ¬ (cb.state = "open" ∧ now - cb.last_failure_time ≤ cb.timeout)) :
    (cb.call (α := α) now (.error e)).1 = .raised e := by
  by_cases hs : cb.state = "open"
  · have ht : cb.timeout < now - cb.last_failure_time := by
      have := not_and.mp hpass hs
      omega
    rw [cb.call_open_after_timeout hs now ht,
      CircuitBreaker.call_half_open_error _ rfl]
  · simp only [CircuitBreaker.call]
    have hb : (cb.state == "open") = false := by simpa using hs
    simp only [hb, Bool.false_eq_true, if_false]

/-- C3: the breaker `state` moves only along the specified transitions
under `call` and `reset`: fail-fast (no transition, operation not invoked)
while open within `timeout` seconds of the last recorded failure; lazy
`open → half_open` on the first call attempted after the timeout; `closed`
self-loop with the failure counter reset on success; `closed → open`
exactly when the consecutive failure count reaches `failure_threshold`;
`half_open → closed` (failure counter zeroed) exactly when the consecutive
success count reaches `half_open_success_threshold`; `half_open → open` on
any failure; `reset` back to closed with counters zeroed; and in all
pass-through cases the operation result / original exception is propagated
unchanged. -/
theorem circuit_breaker_state_machine (cb : CircuitBreaker) (now : Int)
    (outcome : Except ε α) :
    (cb.state = "open" → now - cb.last_failure_time ≤ cb.timeout →
      cb.call now outcome =
        (.circuitOpen (circuitOpenMsg (cb.timeout - (now - cb.last_failure_time))), cb)) ∧
    ((¬ (cb.state = "open" ∧ now - cb.last_failure_time ≤ cb.timeout)) →
      (∀ a, outcome = .ok a → (cb.call now outcome).1 = .ok a) ∧
      (∀ e, outcome = .error e → (cb.call now outcome).1 = .raised e)) ∧
    (cb.state = "closed" → ∀ a, outcome = .ok a →
      (cb.call now outcome).2.state = "closed" ∧
      (cb.call now outcome).2.failure_count = 0) ∧
    (cb.state = "closed" → ∀ e, outcome = .error e →
      (cb.call now outcome).2.failure_count = cb.failure_count + 1 ∧
      (cb.call now outcome).2.last_failure_time = now ∧
      (cb.failure_threshold ≤ cb.failure_count + 1 →
        (cb.call now outcome).2.state = "open") ∧
      (cb.failure_count + 1 < cb.failure_threshold →
        (cb.call now outcome).2.state = "closed")) ∧
    (cb.state = "open" → cb.timeout < now - cb.last_failure_time →
      (∀ a, outcome = .ok a →
        (cb.call now outcome).2.success_count = 1 ∧
        (cb.half_open_success_threshold ≤ 1 →
          (cb.call now outcome).2.state = "closed" ∧
          (cb.call now outcome).2.failure_count = 0) ∧
        (1 < cb.half_open_success_threshold →
          (cb.call now outcome).2.state = "half_open")) ∧
      (∀ e, outcome = .error e → (cb.call now outcome).2.state = "open")) ∧
    (cb.state = "half_open" → ∀ a, outcome = .ok a →
      (cb.call now outcome).2.success_count = cb.success_count + 1 ∧
      (cb.half_open_success_threshold ≤ cb.success_count + 1 →
        (cb.call now outcome).2.state = "closed" ∧
        (cb.call now outcome).2.failure_count = 0) ∧
      (cb.success_count + 1 < cb.half_open_success_threshold →
        (cb.call now outcome).2.state = "half_open")) ∧
    (cb.state = "half_open" → ∀ e, outcome = .error e →
      (cb.call now outcome).2.state = "open") ∧
    (cb.reset.state = "closed" ∧ cb.reset.failure_count = 0 ∧
      cb.reset.success_count = 0) := by
  refine ⟨?_, ?_, ?_, ?_, ?_, ?_, ?_, ?_⟩
  · intro hs ht
    exact cb.call_open_fastfail hs now ht outcome
  · intro hpass
    exact ⟨fun a ha => ha ▸ cb.call_fst_ok now a hpass,
           fun e he => he ▸ cb.call_fst_error now e hpass⟩
  · rintro hs a rfl
    rw [cb.call_closed_ok hs now a]
    exact ⟨hs, rfl⟩
  · rintro hs e rfl
    rw [cb.call_closed_error hs now e]
    refine ⟨?_, ?_, ?_, ?_⟩
    · split <;> rfl
    · split <;> rfl
    · intro hth
      simp [hth]
    · intro hth
      rw [if_neg (by omega)]
      exact hs
  · intro hs ht
    constructor
    · rintro a rfl
      rw [cb.call_open_after_timeout hs now ht,
        CircuitBreaker.call_half_open_ok _ rfl]
      refine ⟨?_, ?_, ?_⟩
      · split <;> rfl
      · intro hth
        rw [if_pos (by simpa using hth)]
        exact ⟨rfl, rfl⟩
      · intro hth
        rw [if_neg (by simp; omega)]
    · rintro e rfl
      rw [cb.call_open_after_timeout hs now ht,
        CircuitBreaker.call_half_open_error _ rfl]
  · rintro hs a rfl
    rw [cb.call_half_open_ok hs now a]
    refine ⟨?_, ?_, ?_⟩
    · split <;> rfl
    · intro hth
      rw [if_pos hth]
      exact ⟨rfl, rfl⟩
    · intro hth
      rw [if_neg (by omega)]
      exact hs
  · rintro hs e rfl
    rw [cb.call_half_open_error hs now e]
  · exact ⟨rfl, rfl, rfl⟩

/-- C3 witness: the state machine instantiated at a fresh breaker with
threshold 3 seeing one failing call at time 5: the failure is re-raised,
the counter becomes 1, the failure time is recorded and the state stays
closed (1 < 3). -/
theorem circuit_breaker_state_machine_witness :
    ((CircuitBreaker.init 3 60).call 5 (Except.error (α := Nat) "boom")).1 =
        CallResult.raised "boom" ∧
    ((CircuitBreaker.init 3 60).call 5
        (Except.error (α := Nat) "boom")).2.failure_count = 1 ∧
    ((CircuitBreaker.init 3 60).call 5
        (Except.error (α := Nat) "boom")).2.last_failure_time = 5 ∧
    ((CircuitBreaker.init 3 60).call 5
        (Except.error (α := Nat) "boom")).2.state = "closed" := by
  have h := circuit_breaker_state_machine (CircuitBreaker.init 3 60) 5
    (Except.error (α := Nat) "boom")
  refine ⟨(h.2.1 (by decide) |>.2) "boom" rfl, ?_, ?_, ?_⟩
  · exact (h.2.2.2.1 rfl "boom" rfl).1
  · exact (h.2.2.2.1 rfl "boom" rfl).2.1
  · exact (h.2.2.2.1 rfl "boom" rfl).2.2.2 (by decide)

/-- Rewriting the system prompt touches only the context manager. -/
theorem AgentOrchestrator.update_prompt_preserves_breakers (o : AgentOrchestrator)
    (c : String) :
    (o.update_system_prompt_for_language c).circuit_breakers = o.circuit_breakers := rfl

/-- TTS stage, breaker open within cooldown: graceful degradation to a
text-only result whose `error` field carries the breaker message. -/
theorem AgentOrchestrator.ttsStage_breaker_open (o : AgentOrchestrator) (m : Modules)
    (clk : TurnClock) (text resp pl : String) (cbs : Breakers)
    (hcb : o.circuit_breakers = some cbs) (hst : cbs.tts.state = "open")
    (ht : clk.tts_now - cbs.tts.last_failure_time ≤ cbs.tts.timeout) :
    (o.ttsStage m clk text resp pl).1 =
      { text := some text, response := some resp, audio := none,
        language := some pl, metrics := none,
        error := some ("TTS error: " ++
          circuitOpenMsg (cbs.tts.timeout - (clk.tts_now - cbs.tts.last_failure_time))) } := by
  simp [AgentOrchestrator.ttsStage, hcb, CircuitBreaker.call_open_fastfail _ hst _ ht]

/-- TTS stage, breaker closed but synthesis exhausting its retries: the
`None` audio flows through the full-success return, with a `metrics` object
and no error key. -/
theorem AgentOrchestrator.ttsStage_retry_exhausted (o : AgentOrchestrator) (m : Modules)
    (clk : TurnClock) (text resp pl : String) (cbs : Breakers)
    (hcb : o.circuit_breakers = some cbs) (hst : cbs.tts.state = "closed")
    (hroute : ∀ l, TaskRouter.route_synthesis m resp l = none) :
    (o.ttsStage m clk text resp pl).1 =
      { text := some text, response := some resp, audio := none,
        language := some pl,
        metrics := some ⟨clk.stt_time, clk.llm_time, clk.tts_time,
          clk.stt_time + clk.llm_time + clk.tts_time⟩,
        error := none } := by
  simp [AgentOrchestrator.ttsStage, hcb, hroute, CircuitBreaker.call_closed_ok _ hst]

/-- LLM stage on success: append the turn and hand over to the TTS stage. -/
theorem AgentOrchestrator.llmStage_success (o : AgentOrchestrator) (m : Modules)
    (clk : TurnClock) (text pl : String) (sp : Option String) (cbs : Breakers)
    (resp : String)
    (hcb : o.circuit_breakers = some cbs) (hst : cbs.llm.state = "closed")
    (hgen : TaskRouter.route_generation m text (o.context_manager.get_context sp) pl =
      some resp)
    (hresp : resp ≠ "") :
    o.llmStage m clk text pl sp =
      AgentOrchestrator.ttsStage
        { o with processing_state := "tts",
                 circuit_breakers :=
                   some { cbs with llm := { cbs.llm with failure_count := 0 } },
                 context_manager := o.context_manager.add_turn text resp pl }
        m clk text resp pl := by
  simp [AgentOrchestrator.llmStage, hcb, hgen, CircuitBreaker.call_closed_ok _ hst,
    pyTruthy, hresp]

/-- STT stage on success: hand the transcription to the language step. -/
theorem AgentOrchestrator.sttStage_success (o : AgentOrchestrator) (m : Modules)
    (clk : TurnClock) (audio_data : List Nat) (pl : String) (sp : Option String)
    (cbs : Breakers) (text : String) (dl : Option String)
    (hcb : o.circuit_breakers = some cbs) (hst : cbs.stt.state = "closed")
    (hroute : TaskRouter.route_transcription m audio_data (some pl) = (some text, dl))
    (htext : text ≠ "") :
    o.sttStage m clk audio_data pl sp =
      AgentOrchestrator.langStage
        { o with circuit_breakers :=
                   some { cbs with stt := { cbs.stt with failure_count := 0 } } }
        m clk text dl sp := by
  simp [AgentOrchestrator.sttStage, hcb, hroute, CircuitBreaker.call_closed_ok _ hst,
    pyTruthy, htext]

/-- The language-coordination step always continues into the LLM stage and
never touches the circuit breakers. -/
theorem AgentOrchestrator.langStage_to_llm (o : AgentOrchestrator) (m : Modules)
    (clk : TurnClock) (text : String) (dl : Option String) (sp : Option String) :
    ∃ (o' : AgentOrchestrator) (pl : String),
      o.langStage m clk text dl sp = o'.llmStage m clk text pl sp ∧
      o'.circuit_breakers = o.circuit_breakers := by
  unfold AgentOrchestrator.langStage
  dsimp only
  split
  · split
    · exact ⟨_, _, rfl, rfl⟩
    · exact ⟨_, _, rfl, rfl⟩
  · split
    · exact ⟨_, _, rfl, rfl⟩
    · exact ⟨_, _, rfl, rfl⟩

/-- Past the mutual-exclusion guard, `process_turn` always enters the STT
stage with the breakers unchanged. -/
theorem AgentOrchestrator.process_turn_to_stt (o : AgentOrchestrator) (m : Modules)
    (clk : TurnClock) (audio_data : List Nat) (language sp : Option String)
    (hproc : o.is_processing = false) :
    ∃ (o' : AgentOrchestrator) (pl : String),
      o.process_turn m clk audio_data language sp =
        o'.sttStage m clk audio_data pl sp ∧
      o'.circuit_breakers = o.circuit_breakers := by
  unfold AgentOrchestrator.process_turn
  simp only [hproc, Bool.false_eq_true, if_false]
  split
  · exact ⟨_, _, rfl, rfl⟩
  · exact ⟨_, _, rfl, rfl⟩

/-- C8 (amended): for every turn in which STT and LLM succeed but TTS
fails, the result keeps the non-null `text` and `response` and a null
`audio` — never a fully-failed result — but the two TTS failure modes are
reported differently: a raise out of the TTS circuit breaker yields a
populated `error` field (and no metrics key), while `route_synthesis`
exhausting its retries and returning `None` yields NO error field at all —
the result goes out through the full-success shape with a `metrics`
object. -/
theorem process_turn_tts_degradation (o : AgentOrchestrator) (m : Modules) (clk : TurnClock)
    (audio_data : List Nat) (language system_prompt : Option String)
    (cbs : Breakers) (text resp : String) (dl : Option String)
    (hproc : o.is_processing = false)
    (hcbs : o.circuit_breakers = some cbs)
    (hsttcb : cbs.stt.state = "closed")
    (hllmcb : cbs.llm.state = "closed")
    (hstt : ∀ pl, TaskRouter.route_transcription m audio_data (some pl) = (some text, dl))
    (htext : text ≠ "")
    (hllm : ∀ ctx pl, TaskRouter.route_generation m text ctx pl = some resp)
    (hresp : resp ≠ "") :
    (cbs.tts.state = "open" →
      clk.tts_now - cbs.tts.last_failure_time ≤ cbs.tts.timeout →
      (o.process_turn m clk audio_data language system_prompt).1.text = some text ∧
      (o.process_turn m clk audio_data language system_prompt).1.response = some resp ∧
      (o.process_turn m clk audio_data language system_prompt).1.audio = none ∧
      (∃ msg, (o.process_turn m clk audio_data language system_prompt).1.error =
        some ("TTS error: " ++ msg))) ∧
    (cbs.tts.state = "closed" →
      (∀ pl, TaskRouter.route_synthesis m resp pl = none) →
      (o.process_turn m clk audio_data language system_prompt).1.text = some text ∧
      (o.process_turn m clk audio_data language system_prompt).1.response = some resp ∧
      (o.process_turn m clk audio_data language system_prompt).1.audio = none ∧
      (o.process_turn m clk audio_data language system_prompt).1.error = none ∧
      (o.process_turn m clk audio_data language system_prompt).1.metrics =
        some ⟨clk.stt_time, clk.llm_time, clk.tts_time,
          clk.stt_time + clk.llm_time + clk.tts_time⟩) := by
  obtain ⟨o1, pl1, he1, hb1⟩ :=
    o.process_turn_to_stt m clk audio_data language system_prompt hproc
  have hb1' : o1.circuit_breakers = some cbs := hb1.trans hcbs
  have he2 := o1.sttStage_success m clk audio_data pl1 system_prompt cbs text dl
    hb1' hsttcb (hstt pl1) htext
  obtain ⟨o3, pl3, he3, hb3⟩ :=
    AgentOrchestrator.langStage_to_llm
      { o1 with circuit_breakers :=
                  some { cbs with stt := { cbs.stt with failure_count := 0 } } }
      m clk text dl system_prompt
  have hb3' : o3.circuit_breakers =
      some { cbs with stt := { cbs.stt with failure_count := 0 } } := hb3
  have he4 := o3.llmStage_success m clk text pl3 system_prompt _ resp hb3' hllmcb
    (hllm _ _) hresp
  have hrw : (o.process_turn m clk audio_data language system_prompt).1 =
      (AgentOrchestrator.ttsStage
        { o3 with processing_state := "tts",
                  circuit_breakers :=
                    some { cbs with
                             stt := { cbs.stt with failure_count := 0 },
                             llm := { cbs.llm with failure_count := 0 } },
                  context_manager := o3.context_manager.add_turn text resp pl3 }
        m clk text resp pl3).1 := by
    rw [he1, he2, he3, he4]
  constructor
  · intro hopen ht
    rw [hrw, AgentOrchestrator.ttsStage_breaker_open _ m clk text resp pl3
      { cbs with stt := { cbs.stt with failure_count := 0 },
                 llm := { cbs.llm with failure_count := 0 } } rfl hopen ht]
    exact ⟨rfl, rfl, rfl, _, rfl⟩
  · intro hclosed hnone
    rw [hrw, AgentOrchestrator.ttsStage_retry_exhausted _ m clk text resp pl3
      { cbs with stt := { cbs.stt with failure_count := 0 },
                 llm := { cbs.llm with failure_count := 0 } } rfl hclosed hnone]
    exact ⟨rfl, rfl, rfl, rfl, rfl⟩

/-- C8 witness: the amended theorem instantiated at a fresh orchestrator
with modules whose TTS returns `None` on every attempt. -/
theorem process_turn_tts_degradation_witness :
    (freshOrchestrator.process_turn ttsNoneModules clk0 [9] none none).1.text =
      some "hello" ∧
    (freshOrchestrator.process_turn ttsNoneModules clk0 [9] none none).1.response =
      some "hi there" ∧
    (freshOrchestrator.process_turn ttsNoneModules clk0 [9] none none).1.audio = none ∧
    (freshOrchestrator.process_turn ttsNoneModules clk0 [9] none none).1.error = none ∧
    (freshOrchestrator.process_turn ttsNoneModules clk0 [9] none none).1.metrics =
      some ⟨3, 5, 7, 15⟩ :=
  (process_turn_tts_degradation freshOrchestrator ttsNoneModules clk0 [9] none none
    ⟨CircuitBreaker.init 5 60, CircuitBreaker.init 5 60, CircuitBreaker.init 5 60⟩
    "hello" "hi there" (some "en-IN") rfl rfl rfl rfl (fun _ => rfl) (by decide)
    (fun _ _ => rfl) (by decide)).2 rfl (fun _ => rfl)

/-! ## C4 — bounded conversation history -/

/-- `pairsFlat` distributes over append. -/
theorem pairsFlat_append (ts1 ts2 : List (String × String × String)) :
    pairsFlat (ts1 ++ ts2) = pairsFlat ts1 ++ pairsFlat ts2 := by
  induction ts1 with
  | nil => rfl
  | cons t ts ih =>
    obtain ⟨u, a, l⟩ := t
    simp [pairsFlat, ih]

/-- Each turn contributes exactly two messages. -/
theorem length_pairsFlat (ts : List (String × String × String)) :
    (pairsFlat ts).length = 2 * ts.length := by
  induction ts with
  | nil => rfl
  | cons t ts ih =>
    obtain ⟨u, a, l⟩ := t
    simp [pairsFlat, ih]
    omega

/-- Turn pairs contain no system message. -/
theorem filter_system_pairsFlat (ts : List (String × String × String)) :
    (pairsFlat ts).filter (fun m => m.role == "system") = [] := by
  induction ts with
  | nil => rfl
  | cons t ts ih =>
    obtain ⟨u, a, l⟩ := t
    simp [pairsFlat, List.filter, ih]

/-- Turn pairs are all non-system. -/
theorem filter_nonsystem_pairsFlat (ts : List (String × String × String)) :
    (pairsFlat ts).filter (fun m => m.role != "system") = pairsFlat ts := by
  induction ts with
  | nil => rfl
  | cons t ts ih =>
    obtain ⟨u, a, l⟩ := t
    simp [pairsFlat, List.filter, ih]

/-- The user messages of a run of turn pairs, in order. -/
theorem filter_user_pairsFlat (ts : List (String × String × String)) :
    (pairsFlat ts).filter (fun m => m.role == "user") =
      ts.map (fun t => ⟨"user", t.1, some t.2.2⟩) := by
  induction ts with
  | nil => rfl
  | cons t ts ih =>
    obtain ⟨u, a, l⟩ := t
    simp [pairsFlat, List.filter, ih]

/-- The system segment is all system messages. -/
theorem filter_system_sysList (s : Option String) :
    (sysList s).filter (fun m => m.role == "system") = sysList s := by
  cases s <;> simp [sysList, List.filter]

/-- The system segment contains no non-system message. -/
theorem filter_nonsystem_sysList (s : Option String) :
    (sysList s).filter (fun m => m.role != "system") = [] := by
  cases s <;> simp [sysList, List.filter]

/-- The system segment contains no user message. -/
theorem filter_user_sysList (s : Option String) :
    (sysList s).filter (fun m => m.role == "user") = [] := by
  cases s <;> simp [sysList, List.filter]

/-- At most one system message. -/
theorem length_sysList_le (s : Option String) : (sysList s).length ≤ 1 := by
  cases s <;> simp [sysList]

/-- `lastN` is the identity on short lists. -/
theorem lastN_of_length_le (k : Nat) (xs : List α) (h : xs.length ≤ k) :
    lastN k xs = xs := by
  simp [lastN, Nat.sub_eq_zero_of_le h]

/-- `lastN` keeps `min (length xs) k` elements. -/
theorem lastN_length (k : Nat) (xs : List α) :
    (lastN k xs).length = min xs.length k := by
  simp [lastN]
  omega

/-- `lastN 0` keeps nothing. -/
theorem lastN_zero (xs : List α) : lastN 0 xs = [] := by
  simp [lastN]

/-- `lastN` of the empty list. -/
theorem lastN_nil (k : Nat) : lastN k ([] : List α) = [] := by
  simp [lastN]

/-- Appending then taking the last `k` only depends on the last `k` of the
prefix. -/
theorem lastN_append_singleton (k : Nat) (xs : List α) (x : α) :
    lastN k (xs ++ [x]) = lastN k (lastN k xs ++ [x]) := by
  rcases le_or_lt xs.length k with h | h
  · rw [lastN_of_length_le k xs h]
  · rcases Nat.eq_zero_or_pos k with hk0 | hk1
    · subst hk0
      rw [lastN_zero, lastN_zero]
    · have hlen : (lastN k xs).length = k := by
        rw [lastN_length]
        omega
      have e1 : lastN k (xs ++ [x]) = xs.drop (xs.length + 1 - k) ++ [x] := by
        unfold lastN
        simp only [List.length_append, List.length_cons, List.length_nil]
        exact List.drop_append_of_le_length (by omega)
      have e2 : ∀ ys : List α, ys.length = k → lastN k (ys ++ [x]) = ys.drop 1 ++ [x] := by
        intro ys hy
        unfold lastN
        simp only [List.length_append, List.length_cons, List.length_nil,
          Nat.zero_add, hy]
        rw [show k + 1 - k = 1 by omega]
        exact List.drop_append_of_le_length (by omega)
      rw [e1, e2 _ hlen]
      rw [show (lastN k xs).drop 1 = (xs.drop (xs.length - k)).drop 1 from rfl]
      rw [List.drop_drop]
      congr 2
      omega

/-- The `add_turn` window step: on a history of the canonical shape
(system segment followed by at most `max_history` turn pairs, capacity at
least 1), appending a turn keeps the shape and retains exactly the last
`max_history` turns. -/
theorem add_turn_char (cm : ContextManager) (s : Option String)
    (ps : List (String × String × String)) (u a l : String)
    (hk : 1 ≤ cm.max_history)
    (hh : cm.conversation_history = sysList s ++ pairsFlat ps)
    (hlen : ps.length ≤ cm.max_history) :
    (cm.add_turn u a l).conversation_history =
      sysList s ++ pairsFlat (lastN cm.max_history (ps ++ [(u, a, l)])) := by
  have happ : cm.conversation_history ++
      [⟨"user", u, some l⟩, ⟨"assistant", a, some l⟩] =
      sysList s ++ pairsFlat (ps ++ [(u, a, l)]) := by
    rw [hh, pairsFlat_append, List.append_assoc]
    rfl
  unfold ContextManager.add_turn
  dsimp only
  rw [happ]
  by_cases hcond :
      cm.max_history * 2 < (sysList s ++ pairsFlat (ps ++ [(u, a, l)])).length
  · rw [if_pos hcond]
    rw [List.filter_append, filter_system_sysList, filter_system_pairsFlat,
      List.append_nil]
    have hk2 : ¬ (cm.max_history * 2 = 0) := by omega
    rw [pyTakeLast, if_neg hk2]
    rcases le_or_lt (ps.length + 1) cm.max_history with hple | hpgt
    · -- the new pair still fits; the trim can only have fired because a
      -- system message pushed the total to 2k+1, and then it is a no-op
      rw [lastN_of_length_le _ _ (by simp only [List.length_append,
        List.length_cons, List.length_nil]; omega)]
      cases s with
      | none =>
        exfalso
        simp only [sysList, List.nil_append, length_pairsFlat,
          List.length_append, List.length_cons, List.length_nil] at hcond
        omega
      | some p0 =>
        have hn : (sysList (some p0) ++ pairsFlat (ps ++ [(u, a, l)])).length -
            cm.max_history * 2 = 1 := by
          simp only [sysList, List.length_append, List.length_cons,
            List.length_nil, length_pairsFlat]
          simp only [sysList, List.length_append, List.length_cons,
            List.length_nil, length_pairsFlat] at hcond
          omega
        rw [hn]
        rfl
    · -- the window was full: one pair falls off the front
      have hpk : ps.length = cm.max_history := by omega
      rcases ps with _ | ⟨⟨u0, a0, l0⟩, ps'⟩
      · exfalso
        simp at hpk
        omega
      · have hlast : lastN cm.max_history (((u0, a0, l0) :: ps') ++ [(u, a, l)]) =
            ps' ++ [(u, a, l)] := by
          have hidx : (((u0, a0, l0) :: ps') ++ [(u, a, l)]).length -
              cm.max_history = 1 := by
            simp only [List.length_append, List.length_cons, List.length_nil]
            simp only [List.length_cons] at hpk
            omega
          unfold lastN
          rw [hidx]
          rfl
        rw [hlast]
        cases s with
        | none =>
          have hn : (sysList none ++
              pairsFlat (((u0, a0, l0) :: ps') ++ [(u, a, l)])).length -
              cm.max_history * 2 = 2 := by
            simp only [sysList, List.nil_append, length_pairsFlat,
              List.length_append, List.length_cons, List.length_nil]
            simp only [List.length_cons] at hpk
            omega
          rw [hn]
          rfl
        | some p0 =>
          have hn : (sysList (some p0) ++
              pairsFlat (((u0, a0, l0) :: ps') ++ [(u, a, l)])).length -
              cm.max_history * 2 = 3 := by
            simp only [sysList, length_pairsFlat, List.length_append,
              List.length_cons, List.length_nil]
            simp only [List.length_cons] at hpk
            omega
          rw [hn]
          rfl
  · rw [if_neg hcond]
    rw [lastN_of_length_le]
    simp only [List.length_append, List.length_cons, List.length_nil]
    simp only [List.length_append, length_pairsFlat, List.length_append,
      List.length_cons, List.length_nil] at hcond
    omega

/-- `set_system_prompt` replaces the system segment and keeps the pairs. -/
theorem set_system_prompt_char (cm : ContextManager) (s : Option String)
    (ps : List (String × String × String)) (p : String)
    (hh : cm.conversation_history = sysList s ++ pairsFlat ps) :
    (cm.set_system_prompt p).conversation_history =
      sysList (some p) ++ pairsFlat ps := by
  unfold ContextManager.set_system_prompt
  dsimp only
  rw [hh, List.filter_append, filter_nonsystem_sysList, filter_nonsystem_pairsFlat,
    List.nil_append]
  rfl

/-- `clear_history` keeps exactly the system segment. -/
theorem clear_history_char (cm : ContextManager) (s : Option String)
    (ps : List (String × String × String))
    (hh : cm.conversation_history = sysList s ++ pairsFlat ps) :
    (cm.clear_history).conversation_history = sysList s := by
  unfold ContextManager.clear_history
  dsimp only
  rw [hh, List.filter_append, filter_system_sysList, filter_system_pairsFlat,
    List.append_nil]

/-- No mutation changes the capacity. -/
theorem apply_max_history (cm : ContextManager) (op : CtxOp) :
    (cm.apply op).max_history = cm.max_history := by
  cases op <;> rfl

/-- Running one more mutation. -/
theorem runOps_append (cm : ContextManager) (ops : List CtxOp) (op : CtxOp) :
    cm.runOps (ops ++ [op]) = (cm.runOps ops).apply op := by
  simp [ContextManager.runOps, List.foldl_append]

/-- Ghost turns after an `addTurn`. -/
theorem turnsSince_addTurn (ops : List CtxOp) (u a l : String) :
    turnsSince (ops ++ [.addTurn u a l]) = turnsSince ops ++ [(u, a, l)] := by
  simp [turnsSince, List.foldl_append]

/-- Ghost turns are unchanged by `setPrompt`. -/
theorem turnsSince_setPrompt (ops : List CtxOp) (p : String) :
    turnsSince (ops ++ [.setPrompt p]) = turnsSince ops := by
  simp [turnsSince, List.foldl_append]

/-- Ghost turns are emptied by `clear`. -/
theorem turnsSince_clear (ops : List CtxOp) :
    turnsSince (ops ++ [.clear]) = [] := by
  simp [turnsSince, List.foldl_append]

/-- Ghost prompt is unchanged by `addTurn`. -/
theorem lastSysPrompt_addTurn (ops : List CtxOp) (u a l : String) :
    lastSysPrompt (ops ++ [.addTurn u a l]) = lastSysPrompt ops := by
  simp [lastSysPrompt, List.foldl_append]

/-- Ghost prompt after a `setPrompt`. -/
theorem lastSysPrompt_setPrompt (ops : List CtxOp) (p : String) :
    lastSysPrompt (ops ++ [.setPrompt p]) = some p := by
  simp [lastSysPrompt, List.foldl_append]

/-- Ghost prompt survives `clear`. -/
theorem lastSysPrompt_clear (ops : List CtxOp) :
    lastSysPrompt (ops ++ [.clear]) = lastSysPrompt ops := by
  simp [lastSysPrompt, List.foldl_append]

/-- Characterization of every reachable history (capacity at least 1):
after any mutation sequence the history is the system segment induced by
the last set prompt, followed by exactly the last `k` turns added since the
last clear. -/
theorem runOps_char (k : Nat) (hk : 1 ≤ k) (ops : List CtxOp) :
    ((ContextManager.init k).runOps ops).conversation_history =
      sysList (lastSysPrompt ops) ++ pairsFlat (lastN k (turnsSince ops)) ∧
    ((ContextManager.init k).runOps ops).max_history = k := by
  induction ops using List.reverseRecOn with
  | nil =>
    refine ⟨?_, rfl⟩
    show ([] : List Msg) = sysList (lastSysPrompt []) ++ pairsFlat (lastN k (turnsSince []))
    rw [show lastSysPrompt [] = none from rfl, show turnsSince [] = [] from rfl,
      lastN_nil]
    rfl
  | append_singleton ops op ih =>
    obtain ⟨ihh, ihm⟩ := ih
    rw [runOps_append]
    refine ⟨?_, by rw [apply_max_history, ihm]⟩
    cases op with
    | addTurn u a l =>
      have hstep := add_turn_char ((ContextManager.init k).runOps ops)
        (lastSysPrompt ops) (lastN k (turnsSince ops)) u a l
        (by rw [ihm]; exact hk) ihh
        (by rw [ihm, lastN_length]; omega)
      show (((ContextManager.init k).runOps ops).add_turn u a l).conversation_history = _
      rw [hstep, ihm, lastSysPrompt_addTurn, turnsSince_addTurn,
        ← lastN_append_singleton]
    | setPrompt p =>
      have hstep := set_system_prompt_char ((ContextManager.init k).runOps ops)
        (lastSysPrompt ops) (lastN k (turnsSince ops)) p ihh
      show (((ContextManager.init k).runOps ops).set_system_prompt p).conversation_history = _
      rw [hstep, lastSysPrompt_setPrompt, turnsSince_setPrompt]
    | clear =>
      have hstep := clear_history_char ((ContextManager.init k).runOps ops)
        (lastSysPrompt ops) (lastN k (turnsSince ops)) ihh
      show (((ContextManager.init k).runOps ops).clear_history).conversation_history = _
      rw [hstep, lastSysPrompt_clear, turnsSince_clear, lastN_nil]
      simp [pairsFlat]

/-- C4 (counterexample): with `max_history = 0` the claimed bound
`non-system messages ≤ 2·k` fails after a single `add_turn` — the Python
slice `history[-(0*2):]` is `history[0:]`, the whole list, so nothing is
ever evicted. -/
theorem context_manager_zero_capacity_violates_bound :
    ¬ ((((ContextManager.init 0).add_turn "hi" "there" "en-IN").conversation_history.filter
        (fun m => m.role != "system")).length ≤ 2 * 0) := by decide

/-- C4 (amended, `k ≥ 1`): for every `max_history = k ≥ 1` and every
sequence of `add_turn` calls interleaved with `set_system_prompt` and
`clear_history`, at all times the non-system messages number at most
`2·k`; the retained user messages are exactly the last `min (N, k)` turns
inserted since the last clear, in insertion order (oldest evicted first);
at most one system message exists, it is exactly the last prompt set
(hence preserved by eviction and by `clear_history`); and
`get_turn_count` returns the retained user-message count
`min (N, k) ≤ k`. -/
theorem context_manager_history_invariants (k : Nat) (hk : 1 ≤ k) (ops : List CtxOp) :
    ((((ContextManager.init k).runOps ops).conversation_history.filter
        (fun m => m.role != "system")).length ≤ 2 * k) ∧
    (((ContextManager.init k).runOps ops).conversation_history.filter
        (fun m => m.role == "user") =
      (lastN k (turnsSince ops)).map (fun t => ⟨"user", t.1, some t.2.2⟩)) ∧
    ((((ContextManager.init k).runOps ops).conversation_history.filter
        (fun m => m.role == "system")).length ≤ 1) ∧
    (((ContextManager.init k).runOps ops).conversation_history.filter
        (fun m => m.role == "system") = sysList (lastSysPrompt ops)) ∧
    (((ContextManager.init k).runOps ops).get_turn_count =
      min (turnsSince ops).length k) := by
  obtain ⟨hh, hm⟩ := runOps_char k hk ops
  refine ⟨?_, ?_, ?_, ?_, ?_⟩
  · rw [hh, List.filter_append, filter_nonsystem_sysList, filter_nonsystem_pairsFlat,
      List.nil_append, length_pairsFlat]
    have := lastN_length k (turnsSince ops)
    omega
  · rw [hh, List.filter_append, filter_user_sysList, filter_user_pairsFlat,
      List.nil_append]
  · rw [hh, List.filter_append, filter_system_sysList, filter_system_pairsFlat,
      List.append_nil]
    exact length_sysList_le _
  · rw [hh, List.filter_append, filter_system_sysList, filter_system_pairsFlat,
      List.append_nil]
  · unfold ContextManager.get_turn_count
    rw [hh, List.filter_append, filter_user_sysList, filter_user_pairsFlat,
      List.nil_append, List.length_map, lastN_length]

/-- C4 witness: the amended invariants at capacity 1 after a prompt and
two turns. -/
theorem context_manager_history_invariants_witness :
    1 ≤ 1 ∧
    ((ContextManager.init 1).runOps
        [CtxOp.setPrompt "sys", CtxOp.addTurn "a" "b" "en-IN",
          CtxOp.addTurn "c" "d" "en-IN"]).get_turn_count =
      min (turnsSince [CtxOp.setPrompt "sys", CtxOp.addTurn "a" "b" "en-IN",
          CtxOp.addTurn "c" "d" "en-IN"]).length 1 :=
  ⟨by decide,
   (context_manager_history_invariants 1 (by decide)
      [CtxOp.setPrompt "sys", CtxOp.addTurn "a" "b" "en-IN",
        CtxOp.addTurn "c" "d" "en-IN"]).2.2.2.2⟩
